import Mathlib

/-!
Verification development for the real-estate listing application.

Shallow embedding of:
* the image upload endpoint (src/app/api/upload/route.ts, POST),
* the image retrieval endpoint (src/app/api/image/[id]/route.ts, GET),
* the property listing endpoints (src/app/api/properties/route.ts, GET and POST),
* the client-side creation workflow handleSubmit (page component).

Binary payloads are byte lists. The gzip stream pair is kept abstract as two
functions comp/decomp handed to the pipeline, so that theorems quantify over
any coder; concrete instantiations are used for closed evaluations. JS numbers
carried by the listing records (coordinates, price, beds, baths, area) are
modelled as rationals, which is faithful here because the code only moves them
around and compares them to zero.
-/

namespace RealEstate

abbrev Bytes := List Nat

/-- JS String.startsWith, used by the upload route on the MIME type. -/
def strStartsWith (s p : String) : Bool := p.toList.isPrefixOf s.toList

/-- An incoming multipart File: name, MIME type (file.type) and raw content.
The size read by the route (file.size, and Buffer.length after conversion) is
the byte length of the content. -/
structure UploadedFile where
  name : String
  type : String
  bytes : Bytes
deriving DecidableEq

/-- A GridFS file document as written by bucket.openUploadStream in the upload
route: top-level contentType plus a metadata object holding exactly
uploadedAt, originalName, size and compressed. The field
metaOriginalContentType models the optional metadata.originalContentType slot
that the image route reads; the upload route never writes it, so it is an
Option that the upload path leaves at none. -/
structure StoredObject where
  filename : String
  contentType : String
  chunk : Bytes
  metaUploadedAt : Nat
  metaOriginalName : String
  metaSize : Nat
  metaCompressed : Bool
  metaOriginalContentType : Option String
deriving DecidableEq

/-- The GridFS bucket: stored objects keyed by identifier. -/
abbrev Store := List (String × StoredObject)

inductive UploadResponse where
  | ok (fileId : String)
  | err (code : Nat) (msg : String)
deriving DecidableEq

def UploadResponse.status : UploadResponse → Nat
  | .ok _ => 200
  | .err code _ => code

/-- The object written by the upload route for file f: gzip-compress when the
buffer exceeds 1 MiB, record contentType application/gzip in that case, and
record the compression flag, upload time, original name and size in metadata. -/
def gridfsObject (comp : Bytes → Bytes) (now : Nat) (f : UploadedFile) : StoredObject :=
  { filename := f.name
    contentType := if f.bytes.length > 1024 * 1024 then "application/gzip" else f.type
    chunk := if f.bytes.length > 1024 * 1024 then comp f.bytes else f.bytes
    metaUploadedAt := now
    metaOriginalName := f.name
    metaSize := f.bytes.length
    metaCompressed := decide (f.bytes.length > 1024 * 1024)
    metaOriginalContentType := none }

/-- POST /api/upload: reject when no file is present, when the file exceeds
5 MB, or when the MIME type does not start with image/; otherwise write one
GridFS object under the generated identifier newId and answer with it. -/
def uploadPOST (comp : Bytes → Bytes) (now : Nat) (newId : String)
    (file : Option UploadedFile) (store : Store) : UploadResponse × Store :=
  match file with
  | none => (.err 400 "No file uploaded", store)
  | some f =>
    if f.bytes.length > 5 * 1024 * 1024 then
      (.err 400 "File too large. Maximum size is 5MB", store)
    else if !(strStartsWith f.type "image/") then
      (.err 400 "Only image files are allowed", store)
    else
      (.ok newId, (newId, gridfsObject comp now f) :: store)

/-- An HTTP response of the image route. body none stands for a response whose
stream carries no usable bytes (error body, or a download stream that fails
because the identifier is unknown to the bucket). -/
structure ImageResponse where
  status : Nat
  contentType : Option String
  cacheControl : Option String
  body : Option Bytes
deriving DecidableEq

/-- Validity of a MongoDB ObjectId string: the ObjectId constructor accepts a
24 character hex string and throws a BSONError otherwise. -/
def isValidObjectId (s : String) : Bool :=
  s.length == 24 &&
    s.toList.all (fun c => c.isDigit || (('a' ≤ c) && (c ≤ 'f')) || (('A' ≤ c) && (c ≤ 'F')))

/-- GET /api/image/[id]: 400 when the path segment is missing; a throw from
new ObjectId(id) on a malformed identifier is caught by the handler and
answered with 404 (body "Image not found"); otherwise the handler looks the
document up in fs.files and answers 200, decompressing and defaulting the
content type from metadata.originalContentType when the compressed flag is
set, and falling back to image/jpeg when the document is absent or carries no
content type. -/
def imageGET (decomp : Bytes → Bytes) (idSeg : Option String) (store : Store) :
    ImageResponse :=
  match idSeg with
  | none => { status := 400, contentType := none, cacheControl := none, body := none }
  | some id =>
    if isValidObjectId id then
      match store.lookup id with
      | none =>
        { status := 200
          contentType := some "image/jpeg"
          cacheControl := some "public, max-age=31536000"
          body := none }
      | some doc =>
        if doc.metaCompressed then
          { status := 200
            contentType := some (doc.metaOriginalContentType.getD "image/jpeg")
            cacheControl := some "public, max-age=31536000"
            body := some (decomp doc.chunk) }
        else
          { status := 200
            contentType := some (if doc.contentType = "" then "image/jpeg" else doc.contentType)
            cacheControl := some "public, max-age=31536000"
            body := some doc.chunk }
    else
      { status := 404, contentType := none, cacheControl := none, body := none }

/-- The client form state relevant to submission: the numeric inputs have JS
type number or empty string, modelled as Option. -/
structure FormFields where
  name : String
  location : String
  description : String
  price : Option ℚ
  beds : Option ℚ
  baths : Option ℚ
  area : Option ℚ
deriving DecidableEq

/-- JS Number(...) applied to a field of type number-or-empty-string: the
empty string coerces to 0. -/
def toNumber : Option ℚ → ℚ
  | none => 0
  | some q => q

/-- Truthiness of s.trim() in JS: the trimmed string is nonempty exactly when
some character is not whitespace. -/
def trimNonempty (s : String) : Bool := s.toList.any (fun c => !c.isWhitespace)

/-- Step 2 of handleSubmit: substitute the three placeholder identifiers when
no image was uploaded. -/
def collectImageIds (uploaded : List String) : List String :=
  if uploaded.length = 0 then ["placeholder1", "placeholder2", "placeholder3"]
  else uploaded

/-- Step 3 of handleSubmit: keep the selected map point unless it is (0,0) and
a nonblank location text was typed, in which case the first geocoding result
is taken; geoResults none models a failed fetch (caught), some [] an empty
result list. -/
def resolveCoordinates (selLat selLng : ℚ) (locationText : String)
    (geoResults : Option (List (ℚ × ℚ))) : ℚ × ℚ :=
  if selLat = 0 ∧ selLng = 0 ∧ trimNonempty locationText then
    match geoResults with
    | none => (selLat, selLng)
    | some [] => (selLat, selLng)
    | some (r :: _) => r
  else (selLat, selLng)

/-- A composed listing payload (the propertyData object of handleSubmit, and
the request body of POST /api/properties). -/
structure PropertyPayload where
  images : List String
  name : String
  location : String
  description : String
  lat : ℚ
  lng : ℚ
  createdAt : Nat
  price : ℚ
  beds : ℚ
  baths : ℚ
  area : ℚ
deriving DecidableEq

/-- The propertyData object composed by handleSubmit from the form state, the
upload results, the selected map point and the geocoding outcome. -/
def composePropertyData (form : FormFields) (locationName : String)
    (uploadedIds : List String) (selLat selLng : ℚ)
    (geoResults : Option (List (ℚ × ℚ))) (now : Nat) : PropertyPayload :=
  let imageIds := collectImageIds uploadedIds
  let coords := resolveCoordinates selLat selLng form.location geoResults
  { images := imageIds
    name := form.name
    location := if locationName = "" then form.location else locationName
    description := form.description
    lat := coords.1
    lng := coords.2
    createdAt := now
    price := toNumber form.price
    beds := toNumber form.beds
    baths := toNumber form.baths
    area := toNumber form.area }

/-- A listing record as returned by POST /api/properties. -/
structure PropertyRecord where
  _id : String
  images : List String
  name : String
  location : String
  description : String
  lat : ℚ
  lng : ℚ
  createdAt : Nat
  price : ℚ
  beds : ℚ
  baths : ℚ
  area : ℚ
deriving DecidableEq

/-- A request whose JSON body can be consumed once: web Request bodies are
one-shot streams, so a second await req.json() rejects with the TypeError
Body is unusable. -/
structure JsonRequest where
  payload : PropertyPayload
  bodyUsed : Bool
deriving DecidableEq

/-- await req.json(): parses the payload and marks the body consumed the
first time; rejects once the body was already used. Returns the outcome
together with the request state seen by later reads. -/
def reqJson (req : JsonRequest) : Except String PropertyPayload × JsonRequest :=
  if req.bodyUsed then (Except.error "Body is unusable", { req with bodyUsed := true })
  else (Except.ok req.payload, { req with bodyUsed := true })

/-- A response of POST /api/properties: a JSON response carrying a record, or
the 500 the framework produces when the handler itself throws, with no
listing record in the body. -/
inductive PostResponse where
  | json (code : Nat) (body : PropertyRecord)
  | serverError
deriving DecidableEq

def PostResponse.status : PostResponse → Nat
  | .json code _ => code
  | .serverError => 500

/-- The mock record built in the catch block of POST /api/properties: spread
of the parsed body with _id equal to mock_ followed by the current epoch
milliseconds and createdAt overridden after the spread. -/
def mockProperty (now : Nat) (data : PropertyPayload) : PropertyRecord :=
  { _id := "mock_" ++ toString now
    images := data.images
    name := data.name
    location := data.location
    description := data.description
    lat := data.lat
    lng := data.lng
    createdAt := now
    price := data.price
    beds := data.beds
    baths := data.baths
    area := data.area }

/-- The catch block of POST /api/properties: it awaits req.json() again and
answers with the mock record; when that second read rejects because the try
block already consumed the body, the rejection escapes the handler and the
framework answers 500. -/
def postCatch (now : Nat) (req : JsonRequest) : PostResponse :=
  match reqJson req with
  | (Except.ok data, _) => .json 200 (mockProperty now data)
  | (Except.error _, _) => .serverError

/-- POST /api/properties: await dbConnect(), await req.json(), then
Property.create(data); any throw lands in the catch block, which sees the
body-consumption state left behind by the try block. connectOk tells whether
dbConnect succeeds; createResult is the outcome of Property.create when it is
reached. -/
def propertiesPOST (now : Nat) (req : JsonRequest) (connectOk : Bool)
    (createResult : Except String PropertyRecord) : PostResponse :=
  if connectOk then
    match reqJson req with
    | (Except.ok _, req2) =>
      match createResult with
      | Except.ok property => .json 200 property
      | Except.error _ => postCatch now req2
    | (Except.error _, req2) => postCatch now req2
  else
    postCatch now req

/-- Newest-first order on listing records. -/
def createdAtDesc (a b : PropertyRecord) : Prop := b.createdAt ≤ a.createdAt

instance : DecidableRel createdAtDesc := fun _ _ => Nat.decLe _ _

instance : IsTotal PropertyRecord createdAtDesc :=
  ⟨fun a b => Nat.le_total b.createdAt a.createdAt⟩

instance : IsTrans PropertyRecord createdAtDesc :=
  ⟨fun _ _ _ hab hbc => Nat.le_trans hbc hab⟩

/-- Property.find().sort on createdAt descending: the stored collection in
newest-first order (the database sort is modelled by an insertion sort). -/
def propertyFindSorted (docs : List PropertyRecord) : List PropertyRecord :=
  List.insertionSort createdAtDesc docs

/-- GET /api/properties: the sorted collection on success, an empty array on
any storage error; the status is 200 in both cases. -/
def propertiesGET (fetched : Except String (List PropertyRecord)) :
    Nat × List PropertyRecord :=
  match fetched with
  | .ok docs => (200, propertyFindSorted docs)
  | .error _ => (200, [])

/-! Concrete data used by closed evaluations. -/

/-- A PNG file one byte over the 1 MiB compression threshold. -/
def bigPng : UploadedFile :=
  { name := "big.png", type := "image/png", bytes := List.replicate (1024 * 1024 + 1) 7 }

/-- A well formed ObjectId string. -/
def bigId : String := "aaaaaaaaaaaaaaaaaaaaaaaa"

/-- A concrete injective coder standing in for gzip in closed evaluations. -/
def tagComp : Bytes → Bytes := fun b => 0 :: b

/-- The matching decoder: drops the tag byte. -/
def tagDecomp : Bytes → Bytes := fun b => b.tail

lemma bigPng_bytes : bigPng.bytes = List.replicate (1024 * 1024 + 1) 7 := rfl

lemma bigPng_length : bigPng.bytes.length = 1024 * 1024 + 1 := by
  rw [bigPng_bytes, List.length_replicate]

/-! Helper lemmas shared by the claim theorems. -/

lemma uploadPOST_valid (comp : Bytes → Bytes) (now : Nat) (newId : String)
    (f : UploadedFile) (store : Store)
    (h5 : f.bytes.length ≤ 5 * 1024 * 1024)
    (him : strStartsWith f.type "image/" = true) :
    uploadPOST comp now newId (some f) store =
      (.ok newId, (newId, gridfsObject comp now f) :: store) := by
  simp only [uploadPOST]
  rw [if_neg (by omega), if_neg (by simp [him])]

lemma imageGET_found_compressed (decomp : Bytes → Bytes) (id : String)
    (store : Store) (doc : StoredObject)
    (hid : isValidObjectId id = true)
    (hfind : store.lookup id = some doc)
    (hc : doc.metaCompressed = true) :
    imageGET decomp (some id) store =
      { status := 200
        contentType := some (doc.metaOriginalContentType.getD "image/jpeg")
        cacheControl := some "public, max-age=31536000"
        body := some (decomp doc.chunk) } := by
  simp only [imageGET, hid, if_true, hfind, hc]

/-- Upload of a compressed-range file followed by retrieval, for any coder
pair that round-trips on the file: the bytes come back intact, but the served
content type is the image/jpeg default because the upload route never records
the original type. -/
lemma upload_retrieve_compressed (comp decomp : Bytes → Bytes) (now : Nat)
    (newId : String) (f : UploadedFile) (store : Store)
    (hrt : decomp (comp f.bytes) = f.bytes)
    (hbig : f.bytes.length > 1024 * 1024)
    (h5 : f.bytes.length ≤ 5 * 1024 * 1024)
    (him : strStartsWith f.type "image/" = true)
    (hid : isValidObjectId newId = true) :
    imageGET decomp (some newId) (uploadPOST comp now newId (some f) store).2 =
      { status := 200
        contentType := some "image/jpeg"
        cacheControl := some "public, max-age=31536000"
        body := some f.bytes } := by
  rw [uploadPOST_valid comp now newId f store h5 him]
  have hfind : ((newId, gridfsObject comp now f) :: store).lookup newId
      = some (gridfsObject comp now f) := by
    simp [List.lookup]
  have hc : (gridfsObject comp now f).metaCompressed = true := by
    simp only [gridfsObject]
    exact decide_eq_true hbig
  rw [imageGET_found_compressed decomp newId _ _ hid hfind hc]
  have hchunk : (gridfsObject comp now f).chunk = comp f.bytes := by
    simp only [gridfsObject]
    rw [if_pos hbig]
  have hmeta : (gridfsObject comp now f).metaOriginalContentType = none := rfl
  rw [hchunk, hmeta, hrt]
  rfl

/-! Claim theorems. -/

/-- C1: the upload/retrieve round-trip law fails on the code. Uploading the
valid image file bigPng (image/png, 1 MiB + 1 byte, under the 5 MB bound) and
retrieving the returned identifier yields byte-identical content but
Content-Type image/jpeg instead of the original image/png: the upload route
stores compressed objects under contentType application/gzip without recording
the original MIME type, while the retrieval route expects it in
metadata.originalContentType and falls back to image/jpeg. -/
theorem C1_roundtrip_content_type_lost :
    bigPng.type = "image/png"
    ∧ bigPng.bytes.length ≤ 5 * 1024 * 1024
    ∧ strStartsWith bigPng.type "image/" = true
    ∧ (imageGET tagDecomp (some bigId) (uploadPOST tagComp 0 bigId (some bigPng) []).2).body
        = some bigPng.bytes
    ∧ (imageGET tagDecomp (some bigId) (uploadPOST tagComp 0 bigId (some bigPng) []).2).contentType
        = some "image/jpeg" := by
  have h5 : bigPng.bytes.length ≤ 5 * 1024 * 1024 := by
    rw [bigPng_length]
    norm_num
  have hbig : bigPng.bytes.length > 1024 * 1024 := by
    rw [bigPng_length]
    norm_num
  have him : strStartsWith bigPng.type "image/" = true := by decide
  have hid : isValidObjectId bigId = true := by decide
  have hrt : tagDecomp (tagComp bigPng.bytes) = bigPng.bytes := rfl
  have key := upload_retrieve_compressed tagComp tagDecomp 0 bigId bigPng [] hrt hbig h5 him hid
  refine ⟨rfl, h5, him, ?_, ?_⟩ <;> rw [key]

/-- C2 counterexample: for the present but malformed identifier abc the
handler answers 404 (the throw of the ObjectId constructor is caught and
mapped to the not-found response), not 400 as the claim states for invalid
identifiers. -/
theorem C2_invalid_id_gives_404 :
    (imageGET (fun b => b) (some "abc") []).status = 404
    ∧ ¬ (imageGET (fun b => b) (some "abc") []).status = 400 := by
  decide

/-- C2 (amended): GET /api/image responds 400 when the identifier path segment
is missing; 404 when the segment is present but not a valid ObjectId (the
constructor throw is caught); 200 with the default type image/jpeg and an
empty stream when the identifier is well formed but unknown to the store; and
200 with Cache-Control public, max-age=31536000 whenever a stored document is
found. -/
theorem C2_amended_retrieval_statuses (decomp : Bytes → Bytes) (store : Store) :
    (imageGET decomp none store).status = 400
    ∧ (∀ id, isValidObjectId id = false → (imageGET decomp (some id) store).status = 404)
    ∧ (∀ id, isValidObjectId id = true → store.lookup id = none →
        imageGET decomp (some id) store =
          { status := 200
            contentType := some "image/jpeg"
            cacheControl := some "public, max-age=31536000"
            body := none })
    ∧ (∀ id doc, isValidObjectId id = true → store.lookup id = some doc →
        (imageGET decomp (some id) store).status = 200
        ∧ (imageGET decomp (some id) store).cacheControl
            = some "public, max-age=31536000") := by
  refine ⟨rfl, ?_, ?_, ?_⟩
  · intro id hinv
    simp [imageGET, hinv]
  · intro id hval hnone
    simp [imageGET, hval, hnone]
  · intro id doc hval hfound
    simp only [imageGET, hval, if_true, hfound]
    by_cases hc : doc.metaCompressed = true
    · rw [if_pos hc]
      exact ⟨rfl, rfl⟩
    · rw [if_neg hc]
      exact ⟨rfl, rfl⟩

/-- C2 witness: the amended behavior evaluated at the malformed identifier zz
over the empty store. -/
theorem C2_amended_retrieval_statuses_witness :
    (imageGET (fun b => b) (some "zz") []).status = 404 :=
  (C2_amended_retrieval_statuses (fun b => b) []).2.1 "zz" (by decide)

/-- C4: a valid upload stores exactly one new object; its payload is the
compressed bytes with the metadata flag set when the file is strictly larger
than 1 MiB, and the raw bytes with the flag unset when it is at most 1 MiB. -/
theorem C4_compression_threshold (comp : Bytes → Bytes) (now : Nat) (newId : String)
    (f : UploadedFile) (store : Store)
    (h5 : f.bytes.length ≤ 5 * 1024 * 1024)
    (him : strStartsWith f.type "image/" = true) :
    uploadPOST comp now newId (some f) store
        = (.ok newId, (newId, gridfsObject comp now f) :: store)
    ∧ (f.bytes.length > 1024 * 1024 →
        (gridfsObject comp now f).chunk = comp f.bytes
        ∧ (gridfsObject comp now f).metaCompressed = true)
    ∧ (f.bytes.length ≤ 1024 * 1024 →
        (gridfsObject comp now f).chunk = f.bytes
        ∧ (gridfsObject comp now f).metaCompressed = false) := by
  refine ⟨uploadPOST_valid comp now newId f store h5 him, fun hbig => ⟨?_, ?_⟩,
    fun hsmall => ⟨?_, ?_⟩⟩
  · simp only [gridfsObject]
    rw [if_pos hbig]
  · simp only [gridfsObject]
    exact decide_eq_true hbig
  · simp only [gridfsObject]
    rw [if_neg (by omega)]
  · simp only [gridfsObject]
    exact decide_eq_false (by omega)

/-- A small PNG file, well under the compression threshold. -/
def smallPng : UploadedFile :=
  { name := "s.png", type := "image/png", bytes := [1, 2, 3] }

/-- C4 witness: the threshold behavior evaluated on the three-byte file. -/
theorem C4_compression_threshold_witness :
    (uploadPOST tagComp 0 bigId (some smallPng) []
        = (.ok bigId, (bigId, gridfsObject tagComp 0 smallPng) :: []))
    ∧ ((gridfsObject tagComp 0 smallPng).chunk = smallPng.bytes
        ∧ (gridfsObject tagComp 0 smallPng).metaCompressed = false) :=
  have h := C4_compression_threshold tagComp 0 bigId smallPng [] (by decide) (by decide)
  ⟨h.1, h.2.2 (by decide)⟩

/-- C5: when no file is present, or the file exceeds 5 MB, or its MIME type
does not start with image/, the upload endpoint answers 400 and the store is
unchanged. -/
theorem C5_invalid_upload_rejected (comp : Bytes → Bytes) (now : Nat) (newId : String)
    (store : Store) (file : Option UploadedFile)
    (h : file = none
        ∨ ∃ f, file = some f
            ∧ (f.bytes.length > 5 * 1024 * 1024 ∨ strStartsWith f.type "image/" = false)) :
    (uploadPOST comp now newId file store).1.status = 400
    ∧ (uploadPOST comp now newId file store).2 = store := by
  rcases h with rfl | ⟨f, rfl, hbad⟩
  · exact ⟨rfl, rfl⟩
  · rcases hbad with hbig | hmime
    · simp only [uploadPOST]
      rw [if_pos hbig]
      exact ⟨rfl, rfl⟩
    · simp only [uploadPOST]
      by_cases hbig : f.bytes.length > 5 * 1024 * 1024
      · rw [if_pos hbig]
        exact ⟨rfl, rfl⟩
      · rw [if_neg hbig, if_pos (by simp [hmime])]
        exact ⟨rfl, rfl⟩

/-- C5 witness: the rejection evaluated at a request carrying no file. -/
theorem C5_invalid_upload_rejected_witness :
    (uploadPOST (fun b => b) 0 "x" none []).1.status = 400
    ∧ (uploadPOST (fun b => b) 0 "x" none []).2 = [] :=
  C5_invalid_upload_rejected (fun b => b) 0 "x" [] none (Or.inl rfl)

/-- Resolution keeps the selected map point whenever it is not (0,0). -/
lemma resolveCoordinates_selected (selLat selLng : ℚ) (loc : String)
    (geo : Option (List (ℚ × ℚ))) (hne : ¬ (selLat = 0 ∧ selLng = 0)) :
    resolveCoordinates selLat selLng loc geo = (selLat, selLng) := by
  unfold resolveCoordinates
  rw [if_neg (fun hcond => hne ⟨hcond.1, hcond.2.1⟩)]

/-- Resolution takes the first geocoding result when the point is (0,0) and a
nonblank location text was typed. -/
lemma resolveCoordinates_geocoded (selLat selLng : ℚ) (loc : String)
    (geo : Option (List (ℚ × ℚ))) (r : ℚ × ℚ) (rest : List (ℚ × ℚ))
    (h1 : selLat = 0) (h2 : selLng = 0) (ht : trimNonempty loc = true)
    (hg : geo = some (r :: rest)) :
    resolveCoordinates selLat selLng loc geo = r := by
  subst h1 h2 hg
  unfold resolveCoordinates
  rw [if_pos ⟨rfl, rfl, ht⟩]

/-- Resolution leaves (0,0) in place when geocoding fails or returns nothing. -/
lemma resolveCoordinates_default (selLat selLng : ℚ) (loc : String)
    (geo : Option (List (ℚ × ℚ)))
    (h1 : selLat = 0) (h2 : selLng = 0) (hg : geo = none ∨ geo = some []) :
    resolveCoordinates selLat selLng loc geo = (0, 0) := by
  subst h1 h2
  by_cases ht : trimNonempty loc = true
  · rcases hg with rfl | rfl
    · unfold resolveCoordinates
      rw [if_pos ⟨rfl, rfl, ht⟩]
    · unfold resolveCoordinates
      rw [if_pos ⟨rfl, rfl, ht⟩]
  · unfold resolveCoordinates
    rw [if_neg (fun hcond => ht hcond.2.2)]

/-- A concrete form state used by witnesses. -/
def demoForm : FormFields :=
  { name := "Villa", location := "Accra", description := "nice",
    price := some 100, beds := some 2, baths := none, area := none }

/-- C3 counterexample: with a fresh request and a connected database, a
failure of Property.create itself does not yield a mock record. The try block
has already consumed the body, so the second await req.json() in the catch
block rejects, the rejection escapes the handler, and the endpoint answers
500 with no listing record — against the claim that every create failure
still yields a record with a mock_ identifier. -/
theorem C3_create_failure_no_mock :
    propertiesPOST 5
        { payload := composePropertyData demoForm "" [] 0 0 none 5, bodyUsed := false }
        true (Except.error "ValidationError")
      = PostResponse.serverError
    ∧ (propertiesPOST 5
        { payload := composePropertyData demoForm "" [] 0 0 none 5, bodyUsed := false }
        true (Except.error "ValidationError")).status = 500 :=
  ⟨rfl, rfl⟩

/-- C3 (amended): the mock fallback works only for failures that precede the
first body read. When dbConnect fails before req.json() is called, the catch
block parses the still-fresh body and answers 200 with the mock record, whose
identifier is the nonempty string mock_ followed by the current time and
whose name, price, beds, baths and area are exactly the submitted payload
values (numeric inputs coerced by Number, empty string giving 0); but when
Property.create itself fails after the try block consumed the body, the
second body read rejects and the endpoint answers 500 with no record. -/
theorem C3_amended_mock_only_before_body_read (form : FormFields)
    (locationName : String) (uploadedIds : List String) (selLat selLng : ℚ)
    (geoResults : Option (List (ℚ × ℚ))) (now : Nat)
    (createResult : Except String PropertyRecord) :
    (propertiesPOST now
        { payload := composePropertyData form locationName uploadedIds selLat selLng
            geoResults now,
          bodyUsed := false } false createResult
      = PostResponse.json 200 (mockProperty now (composePropertyData form locationName
          uploadedIds selLat selLng geoResults now)))
    ∧ ((mockProperty now (composePropertyData form locationName uploadedIds selLat selLng
        geoResults now))._id = "mock_" ++ toString now)
    ∧ ((mockProperty now (composePropertyData form locationName uploadedIds selLat selLng
        geoResults now))._id ≠ "")
    ∧ ((mockProperty now (composePropertyData form locationName uploadedIds selLat selLng
        geoResults now)).name = form.name)
    ∧ ((mockProperty now (composePropertyData form locationName uploadedIds selLat selLng
        geoResults now)).price = toNumber form.price)
    ∧ ((mockProperty now (composePropertyData form locationName uploadedIds selLat selLng
        geoResults now)).beds = toNumber form.beds)
    ∧ ((mockProperty now (composePropertyData form locationName uploadedIds selLat selLng
        geoResults now)).baths = toNumber form.baths)
    ∧ ((mockProperty now (composePropertyData form locationName uploadedIds selLat selLng
        geoResults now)).area = toNumber form.area)
    ∧ (∀ e, propertiesPOST now
        { payload := composePropertyData form locationName uploadedIds selLat selLng
            geoResults now,
          bodyUsed := false } true (Except.error e)
        = PostResponse.serverError) := by
  refine ⟨rfl, rfl, ?_, rfl, rfl, rfl, rfl, rfl, fun e => rfl⟩
  intro h
  have heq : (mockProperty now (composePropertyData form locationName uploadedIds selLat
      selLng geoResults now))._id = "mock_" ++ toString now := rfl
  rw [heq] at h
  have h2 := congrArg String.length h
  rw [String.length_append] at h2
  have h3 : ("mock_" : String).length = 5 := rfl
  have h4 : ("" : String).length = 0 := rfl
  rw [h3, h4] at h2
  omega

/-- C3 witness: the amended behavior evaluated at a concrete submission whose
database connection fails before the body is read. -/
theorem C3_amended_mock_only_before_body_read_witness :
    propertiesPOST 5
        { payload := composePropertyData demoForm "" [] 0 0 none 5, bodyUsed := false }
        false (Except.error "down")
      = PostResponse.json 200 (mockProperty 5 (composePropertyData demoForm "" [] 0 0 none 5)) :=
  (C3_amended_mock_only_before_body_read demoForm "" [] 0 0 none 5 (Except.error "down")).1

/-- C6: coordinate resolution in the composed listing. A selected map point
other than (0,0) is used verbatim, whatever location text was typed; when the
point is (0,0) and the location text is nonblank, the first geocoding result
is used; when geocoding fails or returns nothing, the coordinates stay (0,0). -/
theorem C6_coordinate_resolution (form : FormFields) (locationName : String)
    (uploadedIds : List String) (selLat selLng : ℚ)
    (geoResults : Option (List (ℚ × ℚ))) (now : Nat) :
    (¬ (selLat = 0 ∧ selLng = 0) →
      (composePropertyData form locationName uploadedIds selLat selLng geoResults now).lat
          = selLat
      ∧ (composePropertyData form locationName uploadedIds selLat selLng geoResults now).lng
          = selLng)
    ∧ (∀ r rest, selLat = 0 → selLng = 0 → trimNonempty form.location = true →
        geoResults = some (r :: rest) →
        (composePropertyData form locationName uploadedIds selLat selLng geoResults now).lat
            = r.1
        ∧ (composePropertyData form locationName uploadedIds selLat selLng geoResults now).lng
            = r.2)
    ∧ (selLat = 0 → selLng = 0 → (geoResults = none ∨ geoResults = some []) →
        (composePropertyData form locationName uploadedIds selLat selLng geoResults now).lat
            = 0
        ∧ (composePropertyData form locationName uploadedIds selLat selLng geoResults now).lng
            = 0) := by
  refine ⟨fun hne => ?_, fun r rest h1 h2 ht hg => ?_, fun h1 h2 hg => ?_⟩
  · have h := resolveCoordinates_selected selLat selLng form.location geoResults hne
    constructor
    · show (resolveCoordinates selLat selLng form.location geoResults).1 = selLat
      rw [h]
    · show (resolveCoordinates selLat selLng form.location geoResults).2 = selLng
      rw [h]
  · have h := resolveCoordinates_geocoded selLat selLng form.location geoResults r rest
      h1 h2 ht hg
    constructor
    · show (resolveCoordinates selLat selLng form.location geoResults).1 = r.1
      rw [h]
    · show (resolveCoordinates selLat selLng form.location geoResults).2 = r.2
      rw [h]
  · have h := resolveCoordinates_default selLat selLng form.location geoResults h1 h2 hg
    constructor
    · show (resolveCoordinates selLat selLng form.location geoResults).1 = 0
      rw [h]
    · show (resolveCoordinates selLat selLng form.location geoResults).2 = 0
      rw [h]

/-- C6 witness: a selected point at (5.55, -0.20) survives into the composed
listing even though the demo form carries a nonblank location text. -/
theorem C6_coordinate_resolution_witness :
    (composePropertyData demoForm "" [] (5.55 : ℚ) (-0.20 : ℚ) none 0).lat = 5.55
    ∧ (composePropertyData demoForm "" [] (5.55 : ℚ) (-0.20 : ℚ) none 0).lng = -0.20 :=
  (C6_coordinate_resolution demoForm "" [] 5.55 (-0.20) none 0).1 (by norm_num)

/-- C7: a submission with no uploaded image identifiers composes a listing
whose image sequence is exactly the three placeholder tokens in order. -/
theorem C7_placeholder_images (form : FormFields) (locationName : String)
    (selLat selLng : ℚ) (geoResults : Option (List (ℚ × ℚ))) (now : Nat) :
    (composePropertyData form locationName [] selLat selLng geoResults now).images
      = ["placeholder1", "placeholder2", "placeholder3"] := rfl

/-- C8: GET /api/properties always answers 200, and on any storage error the
body is the empty array. -/
theorem C8_list_never_fails :
    (∀ fetched, (propertiesGET fetched).1 = 200)
    ∧ (∀ e, propertiesGET (Except.error e) = (200, [])) := by
  refine ⟨fun fetched => ?_, fun e => rfl⟩
  cases fetched <;> rfl

/-- C9: for any stored collection, in any insertion order, the listing read
returns a permutation of it ordered by creation time descending. -/
theorem C9_list_sorted_newest_first (docs : List PropertyRecord) :
    List.Sorted createdAtDesc (propertiesGET (Except.ok docs)).2
    ∧ (propertiesGET (Except.ok docs)).2.Perm docs := by
  constructor
  · show List.Sorted createdAtDesc (List.insertionSort createdAtDesc docs)
    exact List.sorted_insertionSort createdAtDesc docs
  · show (List.insertionSort createdAtDesc docs).Perm docs
    exact List.perm_insertionSort createdAtDesc docs

/-- C10: every file stored through the compressed path carries contentType
application/gzip, its metadata has no original content type slot filled, and
the retrieval endpoint therefore serves it as image/jpeg whatever MIME type
was declared at upload. -/
theorem C10_compressed_metadata_shape (comp decomp : Bytes → Bytes) (now : Nat)
    (newId : String) (f : UploadedFile) (store : Store)
    (hbig : f.bytes.length > 1024 * 1024)
    (h5 : f.bytes.length ≤ 5 * 1024 * 1024)
    (him : strStartsWith f.type "image/" = true)
    (hid : isValidObjectId newId = true) :
    (gridfsObject comp now f).contentType = "application/gzip"
    ∧ (gridfsObject comp now f).metaCompressed = true
    ∧ (gridfsObject comp now f).metaOriginalContentType = none
    ∧ (imageGET decomp (some newId) (uploadPOST comp now newId (some f) store).2).contentType
        = some "image/jpeg" := by
  have hc : (gridfsObject comp now f).metaCompressed = true := by
    simp only [gridfsObject]
    exact decide_eq_true hbig
  refine ⟨?_, hc, rfl, ?_⟩
  · simp only [gridfsObject]
    rw [if_pos hbig]
  · rw [uploadPOST_valid comp now newId f store h5 him]
    have hfind : ((newId, gridfsObject comp now f) :: store).lookup newId
        = some (gridfsObject comp now f) := by
      simp [List.lookup]
    rw [imageGET_found_compressed decomp newId _ _ hid hfind hc]
    rfl

/-- C10 witness: the compressed-path shape evaluated on the 1 MiB + 1 byte
PNG. -/
theorem C10_compressed_metadata_shape_witness :
    (gridfsObject tagComp 0 bigPng).contentType = "application/gzip"
    ∧ (gridfsObject tagComp 0 bigPng).metaCompressed = true
    ∧ (gridfsObject tagComp 0 bigPng).metaOriginalContentType = none
    ∧ (imageGET tagDecomp (some bigId) (uploadPOST tagComp 0 bigId (some bigPng) []).2).contentType
        = some "image/jpeg" :=
  C10_compressed_metadata_shape tagComp tagDecomp 0 bigId bigPng []
    (by rw [bigPng_length]; norm_num)
    (by rw [bigPng_length]; norm_num)
    (by decide)
    (by decide)

end RealEstate
